import Mathlib

/-!
Verification of the secure-media-vault GraphQL resolver layer
(`apps/api/src/resolvers.ts`, the `hash-object` edge function and the SQL
schema in `supabase/migrations`) against its natural-language specification.

The resolvers are shallowly embedded as pure Lean functions over an explicit
database state.  Supabase/PostgREST query-builder calls are modelled by list
operations with the same semantics:

* `.select(...).eq(...).single()`  — filter the table; exactly one row is
  `ok`, zero or several rows give the raw PostgREST error `PGRST116`;
* `.maybeSingle()`                  — zero rows is `ok none`, one row is
  `ok (some r)`, several rows give `PGRST116`;
* `.update(...).eq(...).select().single()` — the `WHERE` clause is evaluated
  against the old rows, the updated rows are returned and passed to
  `.single()`;
* `.insert(...)` — appends a row, failing with the unique-violation error
  (SQLSTATE 23505) when a primary-key or unique constraint of
  `20250101000000_initial_schema.sql` would be violated.

Timestamps are modelled as natural numbers (milliseconds), user and asset
identifiers as natural numbers, and the randomness consumed by the resolvers
(fresh UUIDs, nonces, access tokens) is passed in explicitly as arguments.
The blob store is modelled as a map from storage path to the SHA-256 digest
of the bytes stored there, which is exactly the observable behaviour of the
`hash-object` edge function.
-/

namespace MediaVault

/-- Lifecycle status of an asset, with the values allowed by the `status`
check constraint of the `asset` table. -/
inductive AssetStatus : Type
  | draft
  | uploading
  | ready
  | corrupt
deriving DecidableEq, Repr

/-- Extension codes carried by the GraphQLError values thrown by the
resolvers. -/
inductive ErrCode : Type
  | UNAUTHENTICATED
  | INVALID_TICKET
  | FORBIDDEN
  | NOT_FOUND
  | CONFLICT
  | BAD_REQUEST
deriving DecidableEq, Repr

/-- Raw database-layer errors that some resolver paths rethrow without
translating them into a GraphQLError. -/
inductive DbErr : Type
  | PGRST116
  | UNIQUE_VIOLATION
deriving DecidableEq, Repr

/-- An error escaping a resolver: either a deliberately thrown GraphQLError
with a message and an extension code, or a raw database error rethrown
as-is. -/
inductive Err : Type
  | gql (message : String) (code : ErrCode)
  | db (e : DbErr)
deriving DecidableEq, Repr

/-- A row of the `asset` table. -/
structure AssetRow : Type where
  id : Nat
  owner_id : Nat
  filename : String
  mime : String
  size : Nat
  storage_path : String
  sha256 : Option String
  status : AssetStatus
  version : Nat
  created_at : Nat
  updated_at : Nat
deriving DecidableEq, Repr

/-- A row of the `upload_ticket` table. -/
structure TicketRow : Type where
  asset_id : Nat
  user_id : Nat
  storage_path : String
  mime : String
  size : Nat
  used : Bool
  nonce : String
  expires_at : Nat
deriving DecidableEq, Repr

/-- A row of the `asset_share` table. -/
structure ShareRow : Type where
  id : Nat
  asset_id : Nat
  to_user : Nat
  can_download : Bool
  created_at : Nat
deriving DecidableEq, Repr

/-- A row of the `users` table. -/
structure UserRow : Type where
  id : Nat
  email : String
deriving DecidableEq, Repr

/-- A row of the `download_audit` table. -/
structure AuditRow : Type where
  id : Nat
  asset_id : Nat
  user_id : Nat
  at_time : Nat
deriving DecidableEq, Repr

/-- The ledger state: the four tables of the schema plus the blob store,
the latter modelled as a map from storage path to the SHA-256 digest of the
bytes stored at that path. -/
structure DB : Type where
  users : List UserRow
  assets : List AssetRow
  tickets : List TicketRow
  shares : List ShareRow
  audits : List AuditRow
  objects : List (String × String)
deriving DecidableEq, Repr

/-- An entry of the process-local `urlAccessCache` map. -/
structure CacheEntry : Type where
  userId : Nat
  assetId : Nat
  expiresAt : Nat
deriving DecidableEq, Repr

/-- The process-local `urlAccessCache` of ephemeral access tokens. -/
def Cache : Type := List (String × CacheEntry)

/-- PostgREST `.single()`: exactly one row is returned, otherwise the request
fails with error code PGRST116. -/
def single {α : Type} (rows : List α) : Except DbErr α :=
  match rows with
  | [r] => Except.ok r
  | _ => Except.error DbErr.PGRST116

/-- PostgREST `.maybeSingle()`: zero rows yield `none` without an error. -/
def maybeSingle {α : Type} (rows : List α) : Except DbErr (Option α) :=
  match rows with
  | [] => Except.ok none
  | [r] => Except.ok (some r)
  | _ => Except.error DbErr.PGRST116

/-- A conditional `UPDATE ... WHERE p ... RETURNING *`: the first component
is the table after the update, the second the list of updated rows (the
`WHERE` clause is evaluated against the old rows). -/
def updateReturning {α : Type} (rows : List α) (p : α → Bool) (f : α → α) :
    List α × List α :=
  (rows.map fun r => if p r then f r else r, (rows.filter p).map f)

/-- Map.get on the access cache. -/
def cacheGet (cache : Cache) (k : String) : Option CacheEntry :=
  match List.find? (fun p => p.1 == k) cache with
  | some p => some p.2
  | none => none

/-- Map.set on the access cache (replaces any previous binding of the key). -/
def cacheSet (cache : Cache) (k : String) (v : CacheEntry) : Cache :=
  (k, v) :: List.filter (fun p => p.1 != k) cache

/-- Map.delete on the access cache. -/
def cacheDelete (cache : Cache) (k : String) : Cache :=
  List.filter (fun p => p.1 != k) cache

/-- The `requireAuth` helper of the resolver module: a missing user id in the
context fails UNAUTHENTICATED. -/
def requireAuth (ctx : Option Nat) : Except Err Nat :=
  match ctx with
  | none => Except.error (Err.gql ("Unauthorized") ErrCode.UNAUTHENTICATED)
  | some userId => Except.ok userId

/-- Characters kept unchanged by `sanitizeFilename` (the regex class
`[a-zA-Z0-9._-]`). -/
def isAllowedChar (c : Char) : Bool :=
  (('a' ≤ c) && (c ≤ 'z')) || (('A' ≤ c) && (c ≤ 'Z')) ||
    (('0' ≤ c) && (c ≤ '9')) || c == '.' || c == '_' || c == '-'

/-- Collapse every run of underscores to a single underscore (the
`replace(/_+/g, "_")` step). -/
def collapseUnderscores : List Char → List Char
  | [] => []
  | c :: rest =>
    let tail := collapseUnderscores rest
    if c == '_' then
      match tail with
      | '_' :: t => '_' :: t
      | t => '_' :: t
    else
      c :: tail

/-- The resolver module's `sanitizeFilename`: replace every character outside
`[a-zA-Z0-9._-]` by an underscore, collapse runs of underscores, trim. -/
def sanitizeFilename (filename : String) : String :=
  (String.mk (collapseUnderscores
    (filename.data.map fun c => if isAllowedChar c then c else '_'))).trim

/-- The MIME allow-list of `createUploadUrl`. -/
def ALLOWED_MIMES : List String :=
  ["image/jpeg", "image/png", "image/webp", "application/pdf"]

/-- The storage path built by `createUploadUrl`:
`userId/assetId/sanitizedFilename`. -/
def storagePathFor (userId assetId : Nat) (filename : String) : String :=
  toString userId ++ "/" ++ toString assetId ++ "/" ++ sanitizeFilename filename

/-- The `hash-object` edge function: download the object stored at `path`
from the `private-media` bucket and return the SHA-256 digest of its bytes;
a missing or unreadable object yields a 404 response.  The blob store keeps
the digest of the stored bytes directly, so the download-and-digest pipeline
is a lookup. -/
def hashObject (objects : List (String × String)) (path : String) :
    Except Nat String :=
  match List.find? (fun p => p.1 == path) objects with
  | none => Except.error 404
  | some p => Except.ok p.2

/-- The `finalizeUpload` mutation resolver.  It loads the unused ticket for
(assetId, userId) with `.single()`, failing INVALID_TICKET when that errors;
marks every ticket of the asset used; derives the status from the JavaScript
truthiness of `clientSha256` (empty string is falsy); and updates the asset
row keyed on id only, persisting the client-supplied hash and the
caller-supplied version verbatim. -/
def finalizeUpload (db : DB) (ctx : Option Nat) (assetId : Nat)
    (clientSha256 : String) (version : Nat) : Except Err AssetRow × DB :=
  match requireAuth ctx with
  | Except.error e => (Except.error e, db)
  | Except.ok userId =>
    match single (db.tickets.filter fun t =>
        t.asset_id == assetId && t.user_id == userId && t.used == false) with
    | Except.error _ =>
        (Except.error (Err.gql ("Invalid or used upload ticket")
          ErrCode.INVALID_TICKET), db)
    | Except.ok _ticket =>
      let tickets' := db.tickets.map fun t =>
        if t.asset_id == assetId then { t with used := true } else t
      let status := if clientSha256 == "" then AssetStatus.corrupt
        else AssetStatus.ready
      let upd := updateReturning db.assets (fun a => a.id == assetId)
        (fun a => { a with sha256 := some clientSha256, status := status,
                           version := version })
      let db' : DB := { db with tickets := tickets', assets := upd.1 }
      match single upd.2 with
      | Except.error e => (Except.error (Err.db e), db')
      | Except.ok asset => (Except.ok asset, db')

/-- The `WHERE` clause of the conditional update in `renameAsset`:
`id = assetId AND owner_id = userId AND version = version`. -/
def renameMatch (assetId userId version : Nat) (a : AssetRow) : Bool :=
  a.id == assetId && a.owner_id == userId && a.version == version

/-- The `renameAsset` mutation resolver: a single conditional update guarded
by id, owner and version, setting the filename and `version + 1`; when
`.single()` reports PGRST116 (zero or several updated rows) the resolver
throws a Version conflict with extension code CONFLICT. -/
def renameAsset (db : DB) (ctx : Option Nat) (assetId : Nat)
    (filename : String) (version : Nat) : Except Err AssetRow × DB :=
  match requireAuth ctx with
  | Except.error e => (Except.error e, db)
  | Except.ok userId =>
    let upd := updateReturning db.assets (renameMatch assetId userId version)
      (fun a => { a with filename := filename, version := version + 1 })
    let db' : DB := { db with assets := upd.1 }
    match single upd.2 with
    | Except.error e =>
        if e == DbErr.PGRST116 then
          (Except.error (Err.gql ("Version conflict") ErrCode.CONFLICT), db')
        else
          (Except.error (Err.db e), db')
    | Except.ok asset => (Except.ok asset, db')

/-- Result payload of `createUploadUrl` (UploadTicket in the GraphQL
schema; the pre-signed upload URL is supplied by the external blob gateway
and carries no further structure here). -/
structure UploadTicketResult : Type where
  assetId : Nat
  storagePath : String
  uploadUrl : String
  expiresAt : Nat
  nonce : String
  version : Nat
deriving DecidableEq, Repr

/-- True when inserting an asset with this id and storage path would violate
the primary key or the unique constraint on `storage_path`. -/
def assetInsertConflict (db : DB) (assetId : Nat) (storagePath : String) :
    Bool :=
  db.assets.any fun a => a.id == assetId || a.storage_path == storagePath

/-- True when inserting a ticket with this asset id and nonce would violate
the primary key on `asset_id` or the unique constraint on `nonce`. -/
def ticketInsertConflict (db : DB) (assetId : Nat) (nonce : String) : Bool :=
  db.tickets.any fun t => t.asset_id == assetId || t.nonce == nonce

/-- The asset row inserted by `createUploadUrl`: status draft, version 1,
no hash yet. -/
def newAssetRow (userId assetId : Nat) (filename mime : String)
    (size now : Nat) : AssetRow :=
  { id := assetId, owner_id := userId, filename := filename, mime := mime,
    size := size, storage_path := storagePathFor userId assetId filename,
    sha256 := none, status := AssetStatus.draft, version := 1,
    created_at := now, updated_at := now }

/-- The ticket row inserted by `createUploadUrl`: unused, expiring ten
minutes after issuance. -/
def newTicketRow (userId assetId : Nat) (filename mime : String)
    (size now : Nat) (nonce : String) : TicketRow :=
  { asset_id := assetId, user_id := userId,
    storage_path := storagePathFor userId assetId filename, mime := mime,
    size := size, used := false, nonce := nonce,
    expires_at := now + 10 * 60 * 1000 }

/-- The `createUploadUrl` mutation resolver.  The fresh asset id and nonce
(random in the source) and the current time are explicit arguments.  The
asset row and the ticket row are inserted by two separate statements with no
transaction around them: when the second insert fails the resolver throws,
but the asset row written by the first insert remains in the ledger. -/
def createUploadUrl (db : DB) (ctx : Option Nat) (filename mime : String)
    (size : Nat) (assetId : Nat) (nonce : String) (now : Nat) :
    Except Err UploadTicketResult × DB :=
  match requireAuth ctx with
  | Except.error e => (Except.error e, db)
  | Except.ok userId =>
    if ALLOWED_MIMES.contains mime then
      let storagePath := storagePathFor userId assetId filename
      if assetInsertConflict db assetId storagePath then
        (Except.error (Err.db DbErr.UNIQUE_VIOLATION), db)
      else
        let db1 : DB := { db with assets :=
          db.assets ++ [newAssetRow userId assetId filename mime size now] }
        if ticketInsertConflict db assetId nonce then
          (Except.error (Err.db DbErr.UNIQUE_VIOLATION), db1)
        else
          let db2 : DB := { db1 with tickets := db1.tickets ++
            [newTicketRow userId assetId filename mime size now nonce] }
          (Except.ok
            { assetId := assetId, storagePath := storagePath,
              uploadUrl := "signed-upload:" ++ storagePath,
              expiresAt := now + 10 * 60 * 1000, nonce := nonce,
              version := 1 }, db2)
    else
      (Except.error (Err.gql ("Unsupported file type: " ++ mime)
        ErrCode.BAD_REQUEST), db)

/-- Result payload of `getDownloadUrl` (DownloadLink in the GraphQL
schema). -/
structure DownloadLink : Type where
  url : String
  expiresAt : Nat
deriving DecidableEq, Repr

/-- The `getDownloadUrl` query resolver.  Loading the asset uses
`.single()`, whose PGRST116 error for an unknown asset is rethrown raw by
`if (assetError) throw assetError`, which makes the explicit NOT_FOUND
branch below it unreachable.  A non-owner needs an `asset_share` row with
`can_download = true`, checked with `.maybeSingle()`; otherwise the resolver
throws Access denied / FORBIDDEN.  On success a fresh access token (random
in the source, explicit argument here) is cached with a 90-second expiry, an
audit row is appended and the token is glued onto the signed URL. -/
def getDownloadUrl (db : DB) (cache : Cache) (ctx : Option Nat)
    (assetId : Nat) (accessToken : String) (auditId : Nat) (now : Nat) :
    Except Err DownloadLink × DB × Cache :=
  match requireAuth ctx with
  | Except.error e => (Except.error e, db, cache)
  | Except.ok userId =>
    match single (db.assets.filter fun a => a.id == assetId) with
    | Except.error e => (Except.error (Err.db e), db, cache)
    | Except.ok asset =>
      let authz : Except Err Unit :=
        if asset.owner_id == userId then Except.ok ()
        else
          match maybeSingle (db.shares.filter fun s =>
              s.asset_id == assetId && s.to_user == userId &&
                s.can_download == true) with
          | Except.error e => Except.error (Err.db e)
          | Except.ok none =>
              Except.error (Err.gql ("Access denied") ErrCode.FORBIDDEN)
          | Except.ok (some _) => Except.ok ()
      match authz with
      | Except.error e => (Except.error e, db, cache)
      | Except.ok _ =>
        let expiresAt := now + 90 * 1000
        let cache' := cacheSet cache accessToken
          { userId := userId, assetId := assetId, expiresAt := expiresAt }
        let db' : DB := { db with audits := db.audits ++
          [{ id := auditId, asset_id := assetId, user_id := userId,
             at_time := now }] }
        (Except.ok
          { url := "signed:" ++ asset.storage_path ++ "&access_token=" ++
              accessToken,
            expiresAt := expiresAt }, db', cache')

/-- Result payload of `validateDownloadToken` (TokenValidation in the
GraphQL schema). -/
structure TokenValidation : Type where
  valid : Bool
  assetId : Nat
deriving DecidableEq, Repr

/-- The `validateDownloadToken` query resolver: an absent token, a stored
caller different from the authenticated caller, or an expiry in the past all
fail FORBIDDEN (the expired case also deletes the entry); on success the
entry is deleted — single use — and the asset id is returned. -/
def validateDownloadToken (cache : Cache) (ctx : Option Nat)
    (accessToken : String) (now : Nat) :
    Except Err TokenValidation × Cache :=
  match requireAuth ctx with
  | Except.error e => (Except.error e, cache)
  | Except.ok userId =>
    match cacheGet cache accessToken with
    | none =>
        (Except.error (Err.gql ("Invalid or expired access token")
          ErrCode.FORBIDDEN), cache)
    | some cached =>
      if cached.userId != userId then
        (Except.error (Err.gql ("Access denied") ErrCode.FORBIDDEN), cache)
      else if cached.expiresAt < now then
        (Except.error (Err.gql ("Token expired") ErrCode.FORBIDDEN),
          cacheDelete cache accessToken)
      else
        (Except.ok { valid := true, assetId := cached.assetId },
          cacheDelete cache accessToken)

/-- The `shareAsset` mutation resolver: the asset is read back guarded by
id, owner and version (`.single()`, a failure rethrown raw), the recipient
is resolved by email (absent recipient fails NOT_FOUND), and the share row
is upserted.  The upsert is keyed on the primary key `id`, which is a fresh
UUID, so an existing row for the same (asset, recipient) pair violates the
unique constraint instead of being updated. -/
def shareAsset (db : DB) (ctx : Option Nat) (assetId : Nat) (toEmail : String)
    (canDownload : Bool) (version : Nat) (newShareId : Nat) (now : Nat) :
    Except Err ShareRow × DB :=
  match requireAuth ctx with
  | Except.error e => (Except.error e, db)
  | Except.ok userId =>
    match single (db.assets.filter fun a =>
        a.id == assetId && a.owner_id == userId && a.version == version) with
    | Except.error e => (Except.error (Err.db e), db)
    | Except.ok _asset =>
      match single (db.users.filter fun u => u.email == toEmail) with
      | Except.error _ =>
          (Except.error (Err.gql ("User not found") ErrCode.NOT_FOUND), db)
      | Except.ok targetUser =>
        if db.shares.any (fun s =>
            s.asset_id == assetId && s.to_user == targetUser.id) then
          (Except.error (Err.db DbErr.UNIQUE_VIOLATION), db)
        else
          let row : ShareRow :=
            { id := newShareId, asset_id := assetId,
              to_user := targetUser.id, can_download := canDownload,
              created_at := now }
          (Except.ok row, { db with shares := db.shares ++ [row] })

/-- The `revokeShare` mutation resolver: the asset is read back guarded by
id, owner and version, the recipient is resolved by email, and every share
row for (asset, recipient) is deleted.  No asset row is modified. -/
def revokeShare (db : DB) (ctx : Option Nat) (assetId : Nat)
    (toEmail : String) (version : Nat) : Except Err Bool × DB :=
  match requireAuth ctx with
  | Except.error e => (Except.error e, db)
  | Except.ok userId =>
    match single (db.assets.filter fun a =>
        a.id == assetId && a.owner_id == userId && a.version == version) with
    | Except.error e => (Except.error (Err.db e), db)
    | Except.ok _ =>
      match single (db.users.filter fun u => u.email == toEmail) with
      | Except.error _ =>
          (Except.error (Err.gql ("User not found") ErrCode.NOT_FOUND), db)
      | Except.ok targetUser =>
        (Except.ok true, { db with shares := db.shares.filter fun s =>
          !(s.asset_id == assetId && s.to_user == targetUser.id) })

/-- Case-insensitive substring test, the semantics of
`ilike("filename", %q%)`. -/
def strContains (pat : List Char) : List Char → Bool
  | [] => pat.isEmpty
  | c :: t => List.isPrefixOf pat (c :: t) || strContains pat t

/-- The `ilike` filename filter of `myAssets`. -/
def ilikeContains (hay pat : String) : Bool :=
  strContains pat.toLower.data hay.toLower.data

/-- The page size of `myAssets`: `args.first || 50`, where JavaScript
treats 0 as falsy. -/
def pageLimit (first : Option Nat) : Nat :=
  match first with
  | some n => if n == 0 then 50 else n
  | none => 50

/-- The rows selected by the `myAssets` query before ordering and limiting:
owned by the caller, optionally filtered by the `ilike` substring (an empty
search string is falsy in JavaScript and skips the filter), and — when a
cursor is passed — restricted by `.gt("created_at", after)` to rows with a
creation time strictly greater than the cursor. -/
def matchingAssets (db : DB) (userId : Nat) (after : Option Nat)
    (q : Option String) : List AssetRow :=
  let rows := db.assets.filter fun a => a.owner_id == userId
  let rows := match q with
    | some s => if s == "" then rows
        else rows.filter fun a => ilikeContains a.filename s
    | none => rows
  match after with
  | some w => rows.filter fun a => decide (w < a.created_at)
  | none => rows

/-- The `order("created_at", ascending: false)` clause: sort with the most
recent creation time first. -/
def sortByCreatedDesc (l : List AssetRow) : List AssetRow :=
  List.insertionSort (fun x y => y.created_at ≤ x.created_at) l

/-- An edge of the `myAssets` connection; the cursor is the node's creation
timestamp. -/
structure AssetEdge : Type where
  cursor : Nat
  node : AssetRow
deriving DecidableEq, Repr

/-- The `pageInfo` object of the `myAssets` connection. -/
structure PageInfo : Type where
  endCursor : Option Nat
  hasNextPage : Bool
deriving DecidableEq, Repr

/-- The `myAssets` connection result. -/
structure AssetConnection : Type where
  edges : List AssetEdge
  pageInfo : PageInfo
deriving DecidableEq, Repr

/-- The `myAssets` query resolver: select the matching rows, order by
creation time descending, fetch one row more than the page size, report
`hasNextPage` when the extra row arrived, and drop it from the returned
page.  The end cursor is the creation timestamp of the last node. -/
def myAssets (db : DB) (ctx : Option Nat) (after : Option Nat)
    (first : Option Nat) (q : Option String) : Except Err AssetConnection :=
  match requireAuth ctx with
  | Except.error e => Except.error e
  | Except.ok userId =>
    let limit := pageLimit first
    let sorted := sortByCreatedDesc (matchingAssets db userId after q)
    let fetched := sorted.take (limit + 1)
    let hasNextPage : Bool := decide (limit < fetched.length)
    let nodes := if hasNextPage then fetched.take limit else fetched
    Except.ok
      { edges := nodes.map fun a => { cursor := a.created_at, node := a }
        pageInfo :=
          { endCursor := (nodes.getLast?).map AssetRow.created_at
            hasNextPage := hasNextPage } }

/-! Concrete ledger states used to evaluate the resolvers at specific
inputs. -/

/-- A draft asset owned by user 10, awaiting finalization. -/
def draftAsset : AssetRow :=
  { id := 1, owner_id := 10, filename := "photo.jpg", mime := "image/jpeg",
    size := 1024, storage_path := "10/1/photo.jpg", sha256 := none,
    status := AssetStatus.draft, version := 1, created_at := 0,
    updated_at := 0 }

/-- A live (unused) upload ticket for `draftAsset` expiring at time
600000. -/
def liveTicket : TicketRow :=
  { asset_id := 1, user_id := 10, storage_path := "10/1/photo.jpg",
    mime := "image/jpeg", size := 1024, used := false, nonce := "n1",
    expires_at := 600000 }

/-- Ledger for the hash-mismatch scenario: a draft asset with a live ticket,
while the bytes stored at its path digest to "cafebabe". -/
def dbC1 : DB :=
  { users := [{ id := 10, email := "a@example.com" }],
    assets := [draftAsset], tickets := [liveTicket], shares := [],
    audits := [], objects := [("10/1/photo.jpg", "cafebabe")] }

/-- Ledger for the expired-ticket scenario: the same draft asset, but the
ticket expired at time 100 (in the past for any current time of at least
101). -/
def dbC2 : DB :=
  { users := [{ id := 10, email := "a@example.com" }],
    assets := [draftAsset],
    tickets := [{ liveTicket with expires_at := 100 }], shares := [],
    audits := [], objects := [("10/1/photo.jpg", "abc123")] }

/-- Ledger for the re-finalize scenario: the asset already reached the
terminal status `ready` and its ticket is already consumed. -/
def dbC4 : DB :=
  { users := [{ id := 10, email := "a@example.com" }],
    assets :=
      [{ draftAsset with
           status := AssetStatus.ready, sha256 := some "abc123",
           version := 2 }],
    tickets := [{ liveTicket with used := true }], shares := [],
    audits := [], objects := [("10/1/photo.jpg", "abc123")] }

/-- Ledger for the non-atomic issuance scenario: an unrelated asset (id 5)
already holds a ticket whose nonce collides with the nonce generated for the
new issuance. -/
def dbC6 : DB :=
  { users := [{ id := 10, email := "a@example.com" }],
    assets :=
      [{ draftAsset with
           id := 5, storage_path := "10/5/other.jpg",
           status := AssetStatus.ready, sha256 := some "aa",
           version := 2 }],
    tickets :=
      [{ liveTicket with
           asset_id := 5, storage_path := "10/5/other.jpg", nonce := "n",
           used := true }],
    shares := [], audits := [], objects := [] }

/-- Ledger with no assets at all, for the unknown-asset download request. -/
def dbC8e : DB :=
  { users := [{ id := 10, email := "a@example.com" }], assets := [],
    tickets := [], shares := [], audits := [], objects := [] }

/-- Ledger with two assets of user 10, created at times 1 and 2, for the
pagination scenario. -/
def dbC9 : DB :=
  { users := [{ id := 10, email := "a@example.com" }],
    assets :=
      [{ draftAsset with
           id := 1, created_at := 1, storage_path := "10/1/a.jpg",
           status := AssetStatus.ready },
       { draftAsset with
           id := 2, created_at := 2, storage_path := "10/2/b.jpg",
           status := AssetStatus.ready }],
    tickets := [], shares := [], audits := [], objects := [] }

/-- C1: finalizeUpload never recomputes the hash of the stored bytes.  With
the stored object digesting to "cafebabe" (as the hash-object function
reports), a finalize call claiming "deadbeef" still marks the asset `ready`
and persists the client's unverified "deadbeef" — the claim requires
`status = corrupt` with the server-computed "cafebabe". -/
theorem finalize_trusts_client_hash :
    hashObject dbC1.objects ("10/1/photo.jpg") = Except.ok ("cafebabe") ∧
    ((finalizeUpload dbC1 (some 10) 1 ("deadbeef") 2).1.toOption.map
        (fun a => (a.status, a.sha256))) =
      some (AssetStatus.ready, some ("deadbeef")) := by
  exact ⟨rfl, rfl⟩

/-- C2: finalizeUpload performs no expiry check at all (it never reads the
clock), so a ticket that expired at time 100 is still consumed: the call
succeeds, the ticket's `used` flag flips to true and the asset leaves
`draft` — the claim requires a TicketExpired failure that leaves
`used = false` and `status = draft`. -/
theorem finalize_ignores_ticket_expiry :
    (dbC2.tickets.map fun t => (t.used, t.expires_at)) = [(false, 100)] ∧
    ((finalizeUpload dbC2 (some 10) 1 ("abc123") 2).1.toOption.map
        (fun a => a.status)) = some AssetStatus.ready ∧
    (finalizeUpload dbC2 (some 10) 1 ("abc123") 2).2.tickets.map
        TicketRow.used = [true] ∧
    (finalizeUpload dbC2 (some 10) 1 ("abc123") 2).2.assets.map
        AssetRow.status = [AssetStatus.ready] := by
  exact ⟨rfl, rfl, rfl, rfl⟩

/-- C3 counterexample: the version counter can be set to an arbitrary
caller-supplied number.  On an asset at version 1 with a live ticket, a
finalize call passing version 7 persists version 7 — the claim requires
every accepted mutation to increase the version by exactly 1. -/
theorem finalize_version_counterexample :
    dbC1.assets.map AssetRow.version = [1] ∧
    ((finalizeUpload dbC1 (some 10) 1 ("abc123") 7).1.toOption.map
        AssetRow.version) = some 7 := by
  exact ⟨rfl, rfl⟩

/-- C4: there is no idempotent re-finalize path.  With the asset already in
the terminal status `ready` and its ticket consumed, a repeated finalize
call fails INVALID_TICKET instead of returning the current asset
unchanged. -/
theorem finalize_no_idempotent_replay :
    dbC4.assets.map AssetRow.status = [AssetStatus.ready] ∧
    dbC4.tickets.map TicketRow.used = [true] ∧
    (finalizeUpload dbC4 (some 10) 1 ("abc123") 2).1 =
      Except.error (Err.gql ("Invalid or used upload ticket")
        ErrCode.INVALID_TICKET) := by
  exact ⟨rfl, rfl, rfl⟩

/-- C6 counterexample: issuance is not atomic.  When the ticket insert fails
(here: the generated nonce collides with an existing ticket's nonce, which
the schema's unique index rejects), the asset insert that already happened
is not rolled back: the call fails but a draft asset (id 7) without any
ticket remains in the ledger. -/
theorem createUploadUrl_partial_state_counterexample :
    (createUploadUrl dbC6 (some 10) ("photo.jpg") ("image/jpeg") 1024 7
        ("n") 0).1 = Except.error (Err.db DbErr.UNIQUE_VIOLATION) ∧
    (createUploadUrl dbC6 (some 10) ("photo.jpg") ("image/jpeg") 1024 7
        ("n") 0).2.assets.map (fun a => (a.id, a.status)) =
      [(5, AssetStatus.ready), (7, AssetStatus.draft)] ∧
    (createUploadUrl dbC6 (some 10) ("photo.jpg") ("image/jpeg") 1024 7
        ("n") 0).2.tickets.map TicketRow.asset_id = [5] := by
  exact ⟨rfl, rfl, rfl⟩

/-- C8 counterexample: a download request for an unknown asset does not fail
NotFound.  The `.single()` load errors with the raw PostgREST row error
PGRST116, which the resolver rethrows before reaching its (unreachable)
NOT_FOUND branch. -/
theorem getDownloadUrl_unknown_asset_counterexample :
    dbC8e.assets = [] ∧
    (getDownloadUrl dbC8e ([] : Cache) (some 10) 99 ("tok") 1 0).1 =
      Except.error (Err.db DbErr.PGRST116) ∧
    Err.db DbErr.PGRST116 ≠ Err.gql ("Asset not found") ErrCode.NOT_FOUND := by
  refine ⟨rfl, rfl, ?_⟩
  decide

/-- C9 counterexample: the cursor does not continue the descending order.
With assets created at times 1 and 2 and a page size of 1, the first page
returns the newest asset (id 2) with end cursor 2; passing that cursor back
filters with `created_at > 2` and returns the empty page instead of the
strictly older asset (id 1). -/
theorem myAssets_cursor_counterexample :
    (myAssets dbC9 (some 10) none (some 1) none).toOption.map
        (fun c => (c.edges.map fun e => e.node.id, c.pageInfo.endCursor,
          c.pageInfo.hasNextPage)) = some ([2], some 2, true) ∧
    (myAssets dbC9 (some 10) (some 2) (some 1) none).toOption.map
        (fun c => (c.edges.map fun e => e.node.id,
          c.pageInfo.hasNextPage)) = some ([], false) := by
  exact ⟨rfl, rfl⟩

/-! Supporting lemmas about the query-builder model. -/

/-- Filtering with a predicate that pins down the key of a row present in
the table returns exactly that row, provided the keys are unique. -/
theorem filter_eq_singleton_of_key_nodup {α β : Type} [DecidableEq β]
    (key : α → β) (p : α → Bool) (l : List α) (a : α)
    (hn : (l.map key).Nodup) (ha : a ∈ l) (hpa : p a = true)
    (hkey : ∀ b, p b = true → key b = key a) :
    l.filter p = [a] := by
  induction l with
  | nil => cases ha
  | cons b t ih =>
    rw [List.map_cons, List.nodup_cons] at hn
    rcases List.mem_cons.mp ha with rfl | hat
    · rw [List.filter_cons_of_pos hpa]
      have ht : t.filter p = [] := by
        rw [List.filter_eq_nil_iff]
        intro c hc hpc
        exact hn.1 (hkey c hpc ▸ List.mem_map_of_mem key hc)
      rw [ht]
    · have hpb : p b = false := by
        by_contra hx
        have hb : p b = true := by
          cases hb : p b
          · exact absurd hb hx
          · rfl
        exact hn.1 (hkey b hb ▸ List.mem_map_of_mem key hat)
      rw [List.filter_cons_of_neg (by simp [hpb])]
      exact ih hn.2 hat

/-- A conditional update whose predicate matches no row leaves the table
unchanged and returns no rows. -/
theorem updateReturning_nomatch {α : Type} {l : List α} {p : α → Bool}
    (f : α → α) (h : ∀ a ∈ l, p a = false) :
    updateReturning l p f = (l, []) := by
  unfold updateReturning
  rw [Prod.mk.injEq]
  refine ⟨?_, ?_⟩
  · induction l with
    | nil => rfl
    | cons b t ih =>
      rw [List.map_cons, h b (List.mem_cons_self b t)]
      simp only [Bool.false_eq_true, if_false]
      rw [ih fun a ha => h a (List.mem_cons_of_mem b ha)]
  · rw [List.filter_eq_nil_iff.mpr fun a ha => by simp [h a ha],
      List.map_nil]

/-- When the rename predicate matches no row, `renameAsset` throws the
Version conflict error with extension code CONFLICT and leaves the ledger
unchanged. -/
theorem renameAsset_conflict_of_nomatch {db : DB}
    {userId assetId version : Nat} {filename : String}
    (h : ∀ a ∈ db.assets, renameMatch assetId userId version a = false) :
    renameAsset db (some userId) assetId filename version =
      (Except.error (Err.gql ("Version conflict") ErrCode.CONFLICT), db) := by
  have hu := updateReturning_nomatch
    (fun a => { a with filename := filename, version := version + 1 }) h
  unfold renameAsset requireAuth
  dsimp only
  rw [hu]
  rfl

/-- When the rename predicate matches exactly the row `a`, `renameAsset`
returns `a` with the new filename and the version incremented by one, and
writes exactly that row back. -/
theorem renameAsset_ok_of_singleton {db : DB}
    {userId assetId version : Nat} {filename : String} {a : AssetRow}
    (h : db.assets.filter (renameMatch assetId userId version) = [a]) :
    (renameAsset db (some userId) assetId filename version).1 =
      Except.ok { a with filename := filename, version := version + 1 } := by
  unfold renameAsset requireAuth updateReturning
  dsimp only
  rw [h]
  rfl

/-- C5: the rename version guard.  When the ledger has unique asset ids and
the owner presents the asset's current version, `renameAsset` succeeds and
returns the asset with the version incremented by exactly one; when the
conditional update matches zero rows (in particular a stale
`expectedVersion`), it fails with the Version conflict error (extension
code CONFLICT) and the ledger is unchanged — there is no server-side
retry. -/
theorem renameAsset_version_guard (db : DB) (userId assetId : Nat)
    (filename : String) (version : Nat) :
    (∀ a : AssetRow, (db.assets.map AssetRow.id).Nodup → a ∈ db.assets →
      a.id = assetId → a.owner_id = userId → a.version = version →
      (renameAsset db (some userId) assetId filename version).1 =
        Except.ok { a with filename := filename, version := version + 1 }) ∧
    ((∀ a ∈ db.assets, renameMatch assetId userId version a = false) →
      renameAsset db (some userId) assetId filename version =
        (Except.error (Err.gql ("Version conflict") ErrCode.CONFLICT),
          db)) := by
  constructor
  · intro a hn ha hid hown hver
    refine renameAsset_ok_of_singleton
      (filter_eq_singleton_of_key_nodup AssetRow.id _ _ a hn ha ?_ ?_)
    · simp [renameMatch, hid, hown, hver]
    · intro b hb
      simp only [renameMatch, Bool.and_eq_true, beq_iff_eq] at hb
      rw [hb.1.1, hid]
  · exact renameAsset_conflict_of_nomatch

/-- Closed witness for the two branches of the rename version guard: on a
single-asset ledger at version 1, renaming with expected version 1 succeeds
and returns version 2, while renaming with the stale expected version 5
fails with the CONFLICT error and leaves the ledger unchanged. -/
theorem renameAsset_version_guard_witness :
    (renameAsset dbC1 (some 10) 1 ("new.jpg") 1).1 =
      Except.ok { draftAsset with filename := "new.jpg", version := 2 } ∧
    renameAsset dbC1 (some 10) 1 ("new.jpg") 5 =
      (Except.error (Err.gql ("Version conflict") ErrCode.CONFLICT),
        dbC1) := by
  constructor
  · exact (renameAsset_version_guard dbC1 10 1 ("new.jpg") 1).1 draftAsset
      (by decide) (by simp [dbC1]) rfl rfl rfl
  · exact (renameAsset_version_guard dbC1 10 1 ("new.jpg") 5).2
      (by intro a ha; simp [dbC1] at ha; subst ha; decide)

/-- C10: every cause of a zero-row conditional update in `renameAsset` —
no asset with the requested id, an asset owned by a different caller, or a
stale version — produces the same Version conflict error with extension
code CONFLICT; nonexistent and foreign assets are not distinguished from
stale versions as NotFound or Forbidden. -/
theorem renameAsset_conflict_uniform (db : DB) (userId assetId : Nat)
    (filename : String) (version : Nat) :
    ((∀ a ∈ db.assets, a.id ≠ assetId) →
      renameAsset db (some userId) assetId filename version =
        (Except.error (Err.gql ("Version conflict") ErrCode.CONFLICT),
          db)) ∧
    ((∀ a ∈ db.assets, a.id = assetId → a.owner_id ≠ userId) →
      renameAsset db (some userId) assetId filename version =
        (Except.error (Err.gql ("Version conflict") ErrCode.CONFLICT),
          db)) ∧
    ((∀ a ∈ db.assets, a.id = assetId → a.owner_id = userId →
        a.version ≠ version) →
      renameAsset db (some userId) assetId filename version =
        (Except.error (Err.gql ("Version conflict") ErrCode.CONFLICT),
          db)) := by
  refine ⟨fun h => renameAsset_conflict_of_nomatch fun a ha => ?_,
    fun h => renameAsset_conflict_of_nomatch fun a ha => ?_,
    fun h => renameAsset_conflict_of_nomatch fun a ha => ?_⟩
  · simp [renameMatch, h a ha]
  · simp only [renameMatch, Bool.and_eq_false_iff, beq_eq_false_iff_ne]
    by_cases hid : a.id = assetId
    · exact Or.inl (Or.inr (h a ha hid))
    · exact Or.inl (Or.inl hid)
  · simp only [renameMatch, Bool.and_eq_false_iff, beq_eq_false_iff_ne]
    by_cases hid : a.id = assetId
    · by_cases hown : a.owner_id = userId
      · exact Or.inr (h a ha hid hown)
      · exact Or.inl (Or.inr hown)
    · exact Or.inl (Or.inl hid)

/-- Closed witness for the uniform CONFLICT error: the same ledger yields
the identical CONFLICT failure for an unknown asset id, for a caller who is
not the owner, and for a stale version. -/
theorem renameAsset_conflict_uniform_witness :
    renameAsset dbC1 (some 10) 99 ("x.jpg") 1 =
      (Except.error (Err.gql ("Version conflict") ErrCode.CONFLICT),
        dbC1) ∧
    renameAsset dbC1 (some 20) 1 ("x.jpg") 1 =
      (Except.error (Err.gql ("Version conflict") ErrCode.CONFLICT),
        dbC1) ∧
    renameAsset dbC1 (some 10) 1 ("x.jpg") 3 =
      (Except.error (Err.gql ("Version conflict") ErrCode.CONFLICT),
        dbC1) := by
  refine ⟨(renameAsset_conflict_uniform dbC1 10 99 ("x.jpg") 1).1 ?_,
    (renameAsset_conflict_uniform dbC1 20 1 ("x.jpg") 1).2.1 ?_,
    (renameAsset_conflict_uniform dbC1 10 1 ("x.jpg") 3).2.2 ?_⟩
  · intro a ha; simp [dbC1] at ha; subst ha; decide
  · intro a ha; simp [dbC1] at ha; subst ha; decide
  · intro a ha; simp [dbC1] at ha; subst ha; decide

/-- Deleting a key from the access cache makes a subsequent lookup of that
key fail. -/
theorem cacheGet_cacheDelete (cache : Cache) (k : String) :
    cacheGet (cacheDelete cache k) k = none := by
  induction cache with
  | nil => rfl
  | cons p t ih =>
    unfold cacheDelete at ih ⊢
    by_cases h : p.1 = k
    · rw [List.filter_cons, if_neg (by simp [h])]
      exact ih
    · rw [List.filter_cons, if_pos (by simp [bne, h])]
      unfold cacheGet at ih ⊢
      rw [List.find?_cons_of_neg _ (by simp [h])]
      exact ih

/-- C7: ephemeral access tokens validate at most once.  An absent token, a
stored caller different from the authenticated caller, or an expiry in the
past each fail FORBIDDEN; a successful validation returns the stored asset
id and deletes the entry, so a second validation of the same token — by any
caller, at any time — fails FORBIDDEN. -/
theorem validateDownloadToken_single_use (cache : Cache) (userId : Nat)
    (accessToken : String) (now : Nat) :
    (cacheGet cache accessToken = none →
      validateDownloadToken cache (some userId) accessToken now =
        (Except.error (Err.gql ("Invalid or expired access token")
          ErrCode.FORBIDDEN), cache)) ∧
    (∀ e : CacheEntry, cacheGet cache accessToken = some e →
      e.userId ≠ userId →
      validateDownloadToken cache (some userId) accessToken now =
        (Except.error (Err.gql ("Access denied") ErrCode.FORBIDDEN),
          cache)) ∧
    (∀ e : CacheEntry, cacheGet cache accessToken = some e →
      e.userId = userId → e.expiresAt < now →
      validateDownloadToken cache (some userId) accessToken now =
        (Except.error (Err.gql ("Token expired") ErrCode.FORBIDDEN),
          cacheDelete cache accessToken)) ∧
    (∀ e : CacheEntry, cacheGet cache accessToken = some e →
      e.userId = userId → ¬ e.expiresAt < now →
      validateDownloadToken cache (some userId) accessToken now =
        (Except.ok { valid := true, assetId := e.assetId },
          cacheDelete cache accessToken) ∧
      ∀ userId' now' : Nat,
        (validateDownloadToken (cacheDelete cache accessToken)
          (some userId') accessToken now').1 =
          Except.error (Err.gql ("Invalid or expired access token")
            ErrCode.FORBIDDEN)) := by
  refine ⟨fun h => ?_, fun e he hne => ?_, fun e he heq hlt => ?_,
    fun e he heq hlt => ⟨?_, fun userId' now' => ?_⟩⟩
  · unfold validateDownloadToken requireAuth
    rw [h]
  · unfold validateDownloadToken requireAuth
    rw [he]
    dsimp only
    rw [if_pos (by simp [bne, hne])]
  · unfold validateDownloadToken requireAuth
    rw [he]
    dsimp only
    rw [if_neg (by simp [bne, heq]), if_pos (by simpa using hlt)]
  · unfold validateDownloadToken requireAuth
    rw [he]
    dsimp only
    rw [if_neg (by simp [bne, heq]), if_neg (by simpa using hlt)]
  · unfold validateDownloadToken requireAuth
    rw [cacheGet_cacheDelete cache accessToken]

/-- Closed witness for the token validator: on a one-entry cache, the
matching caller validates successfully before expiry and the entry is gone;
revalidating the same token fails FORBIDDEN, as do a wrong caller, an
expired entry and an absent token. -/
theorem validateDownloadToken_single_use_witness :
    validateDownloadToken [("t1", ⟨10, 5, 100⟩)] (some 10) ("t1") 50 =
      (Except.ok { valid := true, assetId := 5 }, ([] : Cache)) ∧
    (validateDownloadToken ([] : Cache) (some 10) ("t1") 50).1 =
      Except.error (Err.gql ("Invalid or expired access token")
        ErrCode.FORBIDDEN) ∧
    validateDownloadToken [("t1", ⟨10, 5, 100⟩)] (some 11) ("t1") 50 =
      (Except.error (Err.gql ("Access denied") ErrCode.FORBIDDEN),
        [("t1", ⟨10, 5, 100⟩)]) ∧
    validateDownloadToken [("t1", ⟨10, 5, 100⟩)] (some 10) ("t1") 200 =
      (Except.error (Err.gql ("Token expired") ErrCode.FORBIDDEN),
        ([] : Cache)) := by
  have h := validateDownloadToken_single_use [("t1", ⟨10, 5, 100⟩)] 10
    ("t1") 50
  have h11 := validateDownloadToken_single_use [("t1", ⟨10, 5, 100⟩)] 11
    ("t1") 50
  have h200 := validateDownloadToken_single_use [("t1", ⟨10, 5, 100⟩)] 10
    ("t1") 200
  refine ⟨(h.2.2.2 ⟨10, 5, 100⟩ rfl rfl (by decide)).1, ?_,
    h11.2.1 ⟨10, 5, 100⟩ rfl (by decide),
    h200.2.2.1 ⟨10, 5, 100⟩ rfl rfl (by decide)⟩
  exact congrArg Prod.fst
    ((validateDownloadToken_single_use ([] : Cache) 10 ("t1") 50).1 rfl)

/-- A successful `.single()` read returns a member of the filtered rows. -/
theorem single_mem {α : Type} {l : List α} {a : α}
    (h : single l = Except.ok a) : a ∈ l := by
  cases l with
  | nil => exact Except.noConfusion h
  | cons x t =>
    cases t with
    | nil =>
      rw [← Except.ok.inj h]
      exact List.mem_singleton_self x
    | cons y u => exact Except.noConfusion h

/-- C3 (amended): the actual version discipline of the code.  Creation
starts the counter at 1 and a successful rename increments it by exactly 1,
but a successful finalize persists the caller-supplied version argument
verbatim (it can skip or decrease), and share/revoke do not touch the asset
rows (no increment) — so the counter is not uniformly +1 per accepted
mutation and can be set to an arbitrary caller-supplied number via
finalize. -/
theorem version_discipline (userId : Nat) :
    (∀ (db : DB) (filename mime : String) (size assetId : Nat)
        (nonce : String) (now : Nat) (r : UploadTicketResult) (db' : DB),
      createUploadUrl db (some userId) filename mime size assetId nonce
          now = (Except.ok r, db') →
      r.version = 1 ∧
        newAssetRow userId assetId filename mime size now ∈ db'.assets ∧
        (newAssetRow userId assetId filename mime size now).version = 1) ∧
    (∀ (db : DB) (assetId : Nat) (filename : String) (version : Nat)
        (a : AssetRow) (db' : DB),
      renameAsset db (some userId) assetId filename version =
        (Except.ok a, db') → a.version = version + 1) ∧
    (∀ (db : DB) (assetId : Nat) (clientSha256 : String) (version : Nat)
        (a : AssetRow) (db' : DB),
      finalizeUpload db (some userId) assetId clientSha256 version =
        (Except.ok a, db') → a.version = version) ∧
    (∀ (db : DB) (assetId : Nat) (toEmail : String) (canDownload : Bool)
        (version newShareId now : Nat) (r : ShareRow) (db' : DB),
      shareAsset db (some userId) assetId toEmail canDownload version
        newShareId now = (Except.ok r, db') → db'.assets = db.assets) ∧
    (∀ (db : DB) (assetId : Nat) (toEmail : String) (version : Nat)
        (r : Bool) (db' : DB),
      revokeShare db (some userId) assetId toEmail version =
        (Except.ok r, db') → db'.assets = db.assets) := by
  refine ⟨?_, ?_, ?_, ?_, ?_⟩
  · intro db filename mime size assetId nonce now r db' h
    unfold createUploadUrl requireAuth at h
    dsimp only at h
    split at h
    · split at h
      · exact absurd (congrArg Prod.fst h) (by simp)
      · split at h
        · exact absurd (congrArg Prod.fst h) (by simp)
        · have h2 := (Prod.mk.injEq _ _ _ _).mp h
          refine ⟨?_, ?_, rfl⟩
          · rw [← Except.ok.inj h2.1]
          · rw [← h2.2]
            exact List.mem_append_right _ (List.mem_singleton_self _)
    · exact absurd (congrArg Prod.fst h) (by simp)
  · intro db assetId filename version a db' h
    unfold renameAsset requireAuth updateReturning at h
    dsimp only at h
    split at h
    · split at h
      · exact absurd (congrArg Prod.fst h) (by simp)
      · exact absurd (congrArg Prod.fst h) (by simp)
    · rename_i asset heq
      have h2 := (Prod.mk.injEq _ _ _ _).mp h
      have ha : a ∈ (db.assets.filter
          (renameMatch assetId userId version)).map fun x =>
            { x with filename := filename, version := version + 1 } := by
        rw [Except.ok.inj h2.1] at heq
        exact single_mem heq
      obtain ⟨b, _, hb⟩ := List.mem_map.mp ha
      rw [← hb]
  · intro db assetId clientSha256 version a db' h
    unfold finalizeUpload requireAuth updateReturning at h
    dsimp only at h
    split at h
    · exact absurd (congrArg Prod.fst h) (by simp)
    · split at h
      · exact absurd (congrArg Prod.fst h) (by simp)
      · rename_i asset heq
        have h2 := (Prod.mk.injEq _ _ _ _).mp h
        have ha : a ∈ (db.assets.filter fun x => x.id == assetId).map
            fun x => { x with
              sha256 := some clientSha256,
              status := if clientSha256 == "" then AssetStatus.corrupt
                else AssetStatus.ready,
              version := version } := by
          rw [Except.ok.inj h2.1] at heq
          exact single_mem heq
        obtain ⟨b, _, hb⟩ := List.mem_map.mp ha
        rw [← hb]
  · intro db assetId toEmail canDownload version newShareId now r db' h
    unfold shareAsset requireAuth at h
    dsimp only at h
    split at h
    · exact absurd (congrArg Prod.fst h) (by simp)
    · split at h
      · exact absurd (congrArg Prod.fst h) (by simp)
      · split at h
        · exact absurd (congrArg Prod.fst h) (by simp)
        · have h2 := (Prod.mk.injEq _ _ _ _).mp h
          rw [← h2.2]
  · intro db assetId toEmail version r db' h
    unfold revokeShare requireAuth at h
    dsimp only at h
    split at h
    · exact absurd (congrArg Prod.fst h) (by simp)
    · split at h
      · exact absurd (congrArg Prod.fst h) (by simp)
      · have h2 := (Prod.mk.injEq _ _ _ _).mp h
        rw [← h2.2]

/-- Closed witness exercising every branch of the amended version
discipline: a fresh issuance yields version 1, a rename of a version-1 asset
returns version 2, a finalize passing version 7 persists version 7, and a
share and a revoke leave the asset table unchanged. -/
theorem version_discipline_witness :
    ((({ assetId := 1, storagePath := "10/1/photo.jpg",
         uploadUrl := "signed-upload:10/1/photo.jpg", expiresAt := 600000,
         nonce := "n1", version := 1 } : UploadTicketResult)).version = 1 ∧
      newAssetRow 10 1 ("photo.jpg") ("image/jpeg") 1024 0 ∈
        ({ dbC8e with
             assets := [newAssetRow 10 1 ("photo.jpg") ("image/jpeg")
               1024 0],
             tickets := [newTicketRow 10 1 ("photo.jpg") ("image/jpeg")
               1024 0 ("n1")] } : DB).assets ∧
      (newAssetRow 10 1 ("photo.jpg") ("image/jpeg") 1024 0).version = 1) ∧
    (({ draftAsset with filename := "r.jpg", version := 2 } :
        AssetRow)).version = 1 + 1 ∧
    (({ draftAsset with
          sha256 := some "abc123", status := AssetStatus.ready,
          version := 7 } : AssetRow)).version = 7 ∧
    ({ dbC1 with shares :=
        [{ id := 99, asset_id := 1, to_user := 10, can_download := true,
           created_at := 5 }] } : DB).assets = dbC1.assets ∧
    ({ dbC1 with shares := ([] : List ShareRow) } : DB).assets =
      dbC1.assets := by
  refine ⟨(version_discipline 10).1 dbC8e ("photo.jpg") ("image/jpeg")
      1024 1 ("n1") 0 _ _ (by with_unfolding_all rfl),
    (version_discipline 10).2.1 dbC1 1 ("r.jpg") 1 _ _
      (by with_unfolding_all rfl),
    (version_discipline 10).2.2.1 dbC1 1 ("abc123") 7 _ _
      (by with_unfolding_all rfl),
    (version_discipline 10).2.2.2.1 dbC1 1 ("a@example.com") true 1 99 5
      _ _ (by with_unfolding_all rfl),
    (version_discipline 10).2.2.2.2 dbC1 1 ("a@example.com") 1 _ _
      (by with_unfolding_all rfl)⟩

/-- C6 (amended): issuance is sequential, not atomic.  With an allowed MIME
type: if the asset insert hits a uniqueness conflict the issuance fails with
nothing written; if the asset insert succeeds but the ticket insert hits a
uniqueness conflict the issuance fails with the draft asset row already
written and left behind (no ticket for it); only when both inserts succeed
are the asset row and the ticket row both present.  The claimed
"no partial state" property fails in the middle case. -/
theorem createUploadUrl_sequential_inserts (db : DB) (userId : Nat)
    (filename mime : String) (size assetId : Nat) (nonce : String)
    (now : Nat) (hm : ALLOWED_MIMES.contains mime = true) :
    (assetInsertConflict db assetId
        (storagePathFor userId assetId filename) = true →
      createUploadUrl db (some userId) filename mime size assetId nonce
        now = (Except.error (Err.db DbErr.UNIQUE_VIOLATION), db)) ∧
    (assetInsertConflict db assetId
        (storagePathFor userId assetId filename) = false →
      ticketInsertConflict db assetId nonce = true →
      createUploadUrl db (some userId) filename mime size assetId nonce
        now = (Except.error (Err.db DbErr.UNIQUE_VIOLATION),
          { db with assets := db.assets ++
            [newAssetRow userId assetId filename mime size now] })) ∧
    (assetInsertConflict db assetId
        (storagePathFor userId assetId filename) = false →
      ticketInsertConflict db assetId nonce = false →
      createUploadUrl db (some userId) filename mime size assetId nonce
        now = (Except.ok
          { assetId := assetId,
            storagePath := storagePathFor userId assetId filename,
            uploadUrl := "signed-upload:" ++
              storagePathFor userId assetId filename,
            expiresAt := now + 10 * 60 * 1000, nonce := nonce,
            version := 1 },
          { db with
              assets := db.assets ++
                [newAssetRow userId assetId filename mime size now],
              tickets := db.tickets ++
                [newTicketRow userId assetId filename mime size now
                  nonce] })) := by
  refine ⟨fun h1 => ?_, fun h1 h2 => ?_, fun h1 h2 => ?_⟩
  · unfold createUploadUrl requireAuth
    dsimp only
    rw [if_pos hm, if_pos h1]
  · unfold createUploadUrl requireAuth
    dsimp only
    rw [if_pos hm, if_neg (by simp [h1]), if_pos h2]
  · unfold createUploadUrl requireAuth
    dsimp only
    rw [if_pos hm, if_neg (by simp [h1]), if_neg (by simp [h2])]

/-- Closed witness for the three issuance branches: a colliding asset id
fails with nothing written, a colliding ticket nonce fails leaving the
orphan draft asset behind, and a clean issuance writes both rows. -/
theorem createUploadUrl_sequential_inserts_witness :
    createUploadUrl dbC1 (some 10) ("photo.jpg") ("image/jpeg") 1024 1
        ("n9") 0 = (Except.error (Err.db DbErr.UNIQUE_VIOLATION), dbC1) ∧
    createUploadUrl dbC6 (some 10) ("photo.jpg") ("image/jpeg") 1024 7
        ("n") 0 = (Except.error (Err.db DbErr.UNIQUE_VIOLATION),
          { dbC6 with assets := dbC6.assets ++
            [newAssetRow 10 7 ("photo.jpg") ("image/jpeg") 1024 0] }) ∧
    createUploadUrl dbC8e (some 10) ("photo.jpg") ("image/jpeg") 1024 7
        ("n1") 0 = (Except.ok
          { assetId := 7,
            storagePath := storagePathFor 10 7 ("photo.jpg"),
            uploadUrl := "signed-upload:" ++ storagePathFor 10 7
              ("photo.jpg"),
            expiresAt := 600000, nonce := "n1", version := 1 },
          { dbC8e with
              assets := dbC8e.assets ++
                [newAssetRow 10 7 ("photo.jpg") ("image/jpeg") 1024 0],
              tickets := dbC8e.tickets ++
                [newTicketRow 10 7 ("photo.jpg") ("image/jpeg") 1024 0
                  ("n1")] }) := by
  refine ⟨(createUploadUrl_sequential_inserts dbC1 10 ("photo.jpg")
      ("image/jpeg") 1024 1 ("n9") 0 (by decide)).1
      (by with_unfolding_all rfl),
    (createUploadUrl_sequential_inserts dbC6 10 ("photo.jpg")
      ("image/jpeg") 1024 7 ("n") 0 (by decide)).2.1
      (by with_unfolding_all rfl) (by with_unfolding_all rfl),
    (createUploadUrl_sequential_inserts dbC8e 10 ("photo.jpg")
      ("image/jpeg") 1024 7 ("n1") 0 (by decide)).2.2
      (by with_unfolding_all rfl) (by with_unfolding_all rfl)⟩

/-- A `.single()` read over exactly one row succeeds with that row. -/
theorem single_singleton {α : Type} (a : α) : single [a] = Except.ok a :=
  rfl

/-- A `.maybeSingle()` read over no rows yields `none`. -/
theorem maybeSingle_nil {α : Type} :
    maybeSingle ([] : List α) = Except.ok none := rfl

/-- A `.maybeSingle()` read over exactly one row yields that row. -/
theorem maybeSingle_singleton {α : Type} (a : α) :
    maybeSingle [a] = Except.ok (some a) := rfl

/-- The download link produced by a successful `getDownloadUrl` call for
asset `a`: the signed URL with the access token appended, expiring 90
seconds from now. -/
def downloadLinkFor (a : AssetRow) (accessToken : String) (now : Nat) :
    DownloadLink :=
  { url := "signed:" ++ a.storage_path ++ "&access_token=" ++ accessToken,
    expiresAt := now + 90 * 1000 }

/-- When the asset loads and the caller is its owner, `getDownloadUrl`
succeeds. -/
theorem getDownloadUrl_ok_owner {db : DB} {cache : Cache}
    {userId assetId : Nat} {accessToken : String} {auditId now : Nat}
    {a : AssetRow} (hfa : db.assets.filter (fun x => x.id == assetId) = [a])
    (hown : a.owner_id = userId) :
    (getDownloadUrl db cache (some userId) assetId accessToken auditId
      now).1 = Except.ok (downloadLinkFor a accessToken now) := by
  unfold getDownloadUrl requireAuth
  dsimp only
  rw [hfa, single_singleton]
  dsimp only
  rw [if_pos (by simp [hown])]
  rfl

/-- When the asset loads, the caller is not the owner but holds exactly one
matching `can_download` grant, `getDownloadUrl` succeeds. -/
theorem getDownloadUrl_ok_shared {db : DB} {cache : Cache}
    {userId assetId : Nat} {accessToken : String} {auditId now : Nat}
    {a : AssetRow} {s : ShareRow}
    (hfa : db.assets.filter (fun x => x.id == assetId) = [a])
    (hown : a.owner_id ≠ userId)
    (hfs : db.shares.filter (fun x => x.asset_id == assetId &&
      x.to_user == userId && x.can_download == true) = [s]) :
    (getDownloadUrl db cache (some userId) assetId accessToken auditId
      now).1 = Except.ok (downloadLinkFor a accessToken now) := by
  unfold getDownloadUrl requireAuth
  dsimp only
  rw [hfa, single_singleton]
  dsimp only
  rw [if_neg (by simp [hown]), hfs, maybeSingle_singleton]
  rfl

/-- A `shareAsset` call whose version-guarded asset read and recipient
lookup both return exactly one row, and for which no grant for the same
(asset, recipient) pair exists yet, inserts the new grant row and
succeeds. -/
theorem shareAsset_ok_of {db : DB} {ownerId assetId version : Nat}
    {toEmail : String} {canDownload : Bool} {shareId now : Nat}
    {a : AssetRow} {u : UserRow}
    (hfa : db.assets.filter (fun x => x.id == assetId &&
      x.owner_id == ownerId && x.version == version) = [a])
    (hfu : db.users.filter (fun x => x.email == toEmail) = [u])
    (hns : db.shares.any (fun s => s.asset_id == assetId &&
      s.to_user == u.id) = false) :
    shareAsset db (some ownerId) assetId toEmail canDownload version
      shareId now =
      (Except.ok { id := shareId, asset_id := assetId, to_user := u.id,
                   can_download := canDownload, created_at := now },
        { db with shares := db.shares ++
          [{ id := shareId, asset_id := assetId, to_user := u.id,
             can_download := canDownload, created_at := now }] }) := by
  unfold shareAsset requireAuth
  dsimp only
  rw [hfa, single_singleton]
  dsimp only
  rw [hfu, single_singleton]
  dsimp only
  rw [if_neg (by simp [hns])]

/-- C8 (amended): download authorization.  A caller who is neither the
owner nor the holder of a `can_download` grant fails FORBIDDEN, and after
the owner shares the asset to the recipient with `canDownload = true` the
same request from the recipient succeeds — both as claimed.  A request for
an unknown asset, however, does not fail NotFound: the resolver rethrows
the raw PostgREST row error (PGRST116) from the `.single()` load, and its
explicit NOT_FOUND branch is unreachable. -/
theorem getDownloadUrl_authorization (db : DB) (cache : Cache)
    (userId assetId : Nat) (accessToken : String) (auditId now : Nat) :
    ((∀ a ∈ db.assets, a.id ≠ assetId) →
      (getDownloadUrl db cache (some userId) assetId accessToken auditId
        now).1 = Except.error (Err.db DbErr.PGRST116)) ∧
    (∀ a : AssetRow, (db.assets.map AssetRow.id).Nodup → a ∈ db.assets →
      a.id = assetId → a.owner_id ≠ userId →
      (∀ s ∈ db.shares, ¬(s.asset_id = assetId ∧ s.to_user = userId ∧
        s.can_download = true)) →
      (getDownloadUrl db cache (some userId) assetId accessToken auditId
        now).1 = Except.error (Err.gql ("Access denied")
          ErrCode.FORBIDDEN)) ∧
    (∀ (ownerId : Nat) (a : AssetRow) (recipient : UserRow)
        (shareId nowS : Nat),
      (db.assets.map AssetRow.id).Nodup →
      (db.users.map UserRow.email).Nodup →
      a ∈ db.assets → a.id = assetId → a.owner_id = ownerId →
      recipient ∈ db.users → recipient.id = userId →
      (∀ s ∈ db.shares, ¬(s.asset_id = assetId ∧ s.to_user = userId)) →
      (getDownloadUrl
        (shareAsset db (some ownerId) assetId recipient.email true
          a.version shareId nowS).2
        cache (some userId) assetId accessToken auditId now).1 =
      Except.ok (downloadLinkFor a accessToken now)) := by
  refine ⟨fun h => ?_, fun a hn ha hid hown hsh => ?_,
    fun ownerId a recipient shareId nowS hn hnu ha hid howner hu hrec
      hsh => ?_⟩
  · unfold getDownloadUrl requireAuth
    dsimp only
    rw [List.filter_eq_nil_iff.mpr fun a ha => by simp [h a ha]]
    rfl
  · have hfa : db.assets.filter (fun x => x.id == assetId) = [a] :=
      filter_eq_singleton_of_key_nodup AssetRow.id _ _ a hn ha
        (by simp [hid])
        (fun b hb => by
          simp only [beq_iff_eq] at hb
          rw [hb, hid])
    have hfs : db.shares.filter (fun x => x.asset_id == assetId &&
        x.to_user == userId && x.can_download == true) = [] := by
      rw [List.filter_eq_nil_iff]
      intro s hs hc
      simp only [Bool.and_eq_true, beq_iff_eq] at hc
      exact hsh s hs ⟨hc.1.1, hc.1.2, hc.2⟩
    unfold getDownloadUrl requireAuth
    dsimp only
    rw [hfa, single_singleton]
    dsimp only
    rw [if_neg (by simp [hown]), hfs, maybeSingle_nil]
  · have hfa : db.assets.filter (fun x => x.id == assetId &&
        x.owner_id == ownerId && x.version == a.version) = [a] :=
      filter_eq_singleton_of_key_nodup AssetRow.id _ _ a hn ha
        (by simp [hid, howner])
        (fun b hb => by
          simp only [Bool.and_eq_true, beq_iff_eq] at hb
          rw [hb.1.1, hid])
    have hfu : db.users.filter
        (fun x => x.email == recipient.email) = [recipient] :=
      filter_eq_singleton_of_key_nodup UserRow.email _ _ recipient hnu hu
        (by simp)
        (fun b hb => by simpa using hb)
    have hns : db.shares.any (fun s => s.asset_id == assetId &&
        s.to_user == recipient.id) = false := by
      rw [List.any_eq_false]
      intro s hs hc
      simp only [Bool.and_eq_true, beq_iff_eq] at hc
      exact hsh s hs ⟨hc.1, hrec ▸ hc.2⟩
    have hfa1 : db.assets.filter (fun x => x.id == assetId) = [a] :=
      filter_eq_singleton_of_key_nodup AssetRow.id _ _ a hn ha
        (by simp [hid])
        (fun b hb => by
          simp only [beq_iff_eq] at hb
          rw [hb, hid])
    rw [shareAsset_ok_of hfa hfu hns]
    by_cases howncase : a.owner_id = userId
    · exact getDownloadUrl_ok_owner hfa1 howncase
    · refine getDownloadUrl_ok_shared
        (s := ({ id := shareId, asset_id := assetId,
                 to_user := recipient.id, can_download := true,
                 created_at := nowS } : ShareRow)) hfa1 howncase ?_
      have hfs0 : db.shares.filter (fun x => x.asset_id == assetId &&
          x.to_user == userId && x.can_download == true) = [] := by
        rw [List.filter_eq_nil_iff]
        intro s hs hc
        simp only [Bool.and_eq_true, beq_iff_eq] at hc
        exact hsh s hs ⟨hc.1.1, hc.1.2⟩
      show (db.shares ++ [({ id := shareId, asset_id := assetId,
                             to_user := recipient.id, can_download := true,
                             created_at := nowS } : ShareRow)]).filter _ = _
      rw [List.filter_append, hfs0, List.nil_append]
      simp [hrec]

/-- Ledger for the share-then-download scenario: owner 10 and recipient 20,
one asset owned by 10, no grants yet. -/
def dbC8 : DB :=
  { users := [{ id := 10, email := "a@example.com" },
              { id := 20, email := "b@example.com" }],
    assets := [draftAsset], tickets := [], shares := [], audits := [],
    objects := [] }

/-- Closed witness for the download-authorization theorem: an unknown asset
id yields the raw PGRST116 error, user 20 without a grant is FORBIDDEN, and
after owner 10 shares the asset to user 20 with canDownload the same
request from user 20 succeeds. -/
theorem getDownloadUrl_authorization_witness :
    (getDownloadUrl dbC8 ([] : Cache) (some 20) 99 ("tok") 1 0).1 =
      Except.error (Err.db DbErr.PGRST116) ∧
    (getDownloadUrl dbC8 ([] : Cache) (some 20) 1 ("tok") 1 0).1 =
      Except.error (Err.gql ("Access denied") ErrCode.FORBIDDEN) ∧
    (getDownloadUrl
      (shareAsset dbC8 (some 10) 1
        (({ id := 20, email := "b@example.com" } : UserRow)).email true
        draftAsset.version 77 5).2
      ([] : Cache) (some 20) 1 ("tok") 1 0).1 =
      Except.ok (downloadLinkFor draftAsset ("tok") 0) := by
  refine ⟨(getDownloadUrl_authorization dbC8 ([] : Cache) 20 99 ("tok")
      1 0).1 ?_,
    (getDownloadUrl_authorization dbC8 ([] : Cache) 20 1 ("tok") 1 0).2.1
      draftAsset (by decide) (by simp [dbC8]) rfl (by decide) ?_,
    (getDownloadUrl_authorization dbC8 ([] : Cache) 20 1 ("tok") 1 0).2.2
      10 draftAsset ({ id := 20, email := "b@example.com" } : UserRow)
      77 5 (by decide) (by decide) (by simp [dbC8]) rfl rfl
      (by simp [dbC8]) rfl ?_⟩
  · intro a ha
    simp [dbC8] at ha
    subst ha
    decide
  · intro s hs
    exact absurd hs (by simp [dbC8])
  · intro s hs
    exact absurd hs (by simp [dbC8])

instance : IsTotal AssetRow (fun x y => y.created_at ≤ x.created_at) :=
  ⟨fun a b => Nat.le_total b.created_at a.created_at⟩

instance : IsTrans AssetRow (fun x y => y.created_at ≤ x.created_at) :=
  ⟨fun _ _ _ hab hbc => Nat.le_trans hbc hab⟩

/-- The descending sort really sorts: later elements have creation times at
most those of earlier ones. -/
theorem sortByCreatedDesc_sorted (l : List AssetRow) :
    (sortByCreatedDesc l).Pairwise
      (fun x y => y.created_at ≤ x.created_at) :=
  List.sorted_insertionSort _ l

/-- The descending sort is a permutation of its input. -/
theorem sortByCreatedDesc_perm (l : List AssetRow) :
    (sortByCreatedDesc l).Perm l :=
  List.perm_insertionSort _ l

/-- C9 (amended): for every page produced by `myAssets`, the edges are in
descending creation-time order and `hasNextPage` reports whether strictly
more than a page of rows matched (the one-row over-fetch); but every
returned row has a creation time strictly greater than the cursor — the
`.gt` filter — so passing the previous page's end cursor yields strictly
newer rows, not the older continuation of the descending order. -/
theorem myAssets_pagination (db : DB) (userId : Nat) (after : Option Nat)
    (first : Option Nat) (q : Option String) (conn : AssetConnection)
    (h : myAssets db (some userId) after first q = Except.ok conn) :
    conn.edges.Pairwise
      (fun e₁ e₂ => e₂.node.created_at ≤ e₁.node.created_at) ∧
    conn.pageInfo.hasNextPage =
      decide (pageLimit first <
        (matchingAssets db userId after q).length) ∧
    (∀ w, after = some w →
      ∀ e ∈ conn.edges, w < e.node.created_at) := by
  unfold myAssets requireAuth at h
  dsimp only at h
  cases Except.ok.inj h
  dsimp only
  refine ⟨?_, ?_, ?_⟩
  · rw [List.pairwise_map]
    have hs := sortByCreatedDesc_sorted (matchingAssets db userId after q)
    split
    · exact List.Pairwise.sublist
        ((List.take_sublist _ _).trans (List.take_sublist _ _)) hs
    · exact List.Pairwise.sublist (List.take_sublist _ _) hs
  · have hlen := (sortByCreatedDesc_perm
      (matchingAssets db userId after q)).length_eq
    rw [decide_eq_decide, List.length_take, hlen, Nat.lt_min]
    exact ⟨fun hx => hx.2, fun hx => ⟨Nat.lt_succ_self _, hx⟩⟩
  · intro w hw e he
    subst hw
    obtain ⟨a, hanodes, rfl⟩ := List.mem_map.mp he
    have hmemsort : a ∈ sortByCreatedDesc
        (matchingAssets db userId (some w) q) := by
      split at hanodes
      · exact List.mem_of_mem_take (List.mem_of_mem_take hanodes)
      · exact List.mem_of_mem_take hanodes
    have hmem : a ∈ matchingAssets db userId (some w) q :=
      (sortByCreatedDesc_perm _).mem_iff.mp hmemsort
    unfold matchingAssets at hmem
    dsimp only at hmem
    exact of_decide_eq_true (List.mem_filter.mp hmem).2

/-- The first page of the pagination witness: page size 1 over two assets
created at times 1 and 2, with cursor 0, returns the newest asset (id 2)
and reports a next page. -/
def pageC9 : AssetConnection :=
  { edges := [{ cursor := 2, node :=
      { draftAsset with
          id := 2, created_at := 2, storage_path := "10/2/b.jpg",
          status := AssetStatus.ready } }],
    pageInfo := { endCursor := some 2, hasNextPage := true } }

/-- Closed witness for the pagination theorem, instantiated at the two-asset
ledger with cursor 0 and page size 1. -/
theorem myAssets_pagination_witness :
    pageC9.edges.Pairwise
      (fun e₁ e₂ => e₂.node.created_at ≤ e₁.node.created_at) ∧
    pageC9.pageInfo.hasNextPage =
      decide (pageLimit (some 1) <
        (matchingAssets dbC9 10 (some 0) none).length) ∧
    (∀ w, (some 0 : Option Nat) = some w →
      ∀ e ∈ pageC9.edges, w < e.node.created_at) :=
  myAssets_pagination dbC9 10 (some 0) (some 1) none pageC9
    (by with_unfolding_all rfl)

end MediaVault
